import Mathlib

/-!
# Verification of the calendar-app reconciliation engine (`src/app.py`)

Shallow embedding of the core of `app.py`: the local event schema, the
Google-color table, the store loader, index-based deletion, the pull
direction (`import_google_to_local` + `parse_google_event_to_local`) and the
push direction (`google_sync`).  Python `datetime` values are embedded as
records of calendar fields; machine-level JSON parsing and HTTP transport
are modelled as oracles passed in as parameters.
-/

set_option autoImplicit false

namespace CalendarApp

/-- A JSON scalar as it appears in the app's `jsonify` response bodies. -/
inductive JVal where
  | bool (b : Bool)
  | num (n : Nat)
  | str (s : String)
  deriving Repr, DecidableEq

/-- An HTTP response: status code plus the JSON object body, kept as an
association list of key/value pairs in insertion order.  An empty body
models a response that carries no JSON payload (Flask's generic 500 page
for an uncaught exception). -/
structure HttpResponse where
  status : Nat
  body : List (String × JVal)
  deriving Repr, DecidableEq

/-- The local event schema (`app.py`, spec section 3): the JSON records held
in a user's store file.  `get`-style accesses with defaults in the source
(`description`, `color`, `imported_from_google`) are embedded as total
fields holding the defaulted value. -/
structure Event where
  title : String
  date : String
  time : String
  duration : Int
  description : String
  color : String
  imported_from_google : Bool
  deriving Repr, DecidableEq

/-- `GOOGLE_COLOR_MAP` (`app.py` lines 38-49): the fixed hex → colorId
table, in source order.  Dict keys are distinct, so an association list is
an exact model. -/
def GOOGLE_COLOR_MAP : List (String × String) :=
  [("#4285f4", "1"),
   ("#dc2127", "11"),
   ("#f4b400", "5"),
   ("#0f9d58", "10"),
   ("#ff6d00", "6"),
   ("#7986cb", "9"),
   ("#33b679", "2"),
   ("#8e24aa", "3"),
   ("#e67c73", "4"),
   ("#616161", "8")]

/-- `GOOGLE_COLOR_MAP.get(hex, '1')` (`app.py` line 597): the hex → remote
colorId direction. -/
def toRemoteId (hex : String) : String :=
  (GOOGLE_COLOR_MAP.lookup hex).getD "1"

/-- The reverse dictionary `{v: k for k, v in GOOGLE_COLOR_MAP.items()}`
(`app.py` line 229).  The values of the table are distinct, so the
comprehension (last-wins) agrees with first-match lookup on the swapped
list. -/
def colorMapReverse : List (String × String) :=
  GOOGLE_COLOR_MAP.map (fun p => (p.2, p.1))

/-- `color_map_reverse.get(color_id, '#4285f4')` (`app.py` line 230): the
remote colorId → hex direction. -/
def toLocalHex (id : String) : String :=
  (colorMapReverse.lookup id).getD "#4285f4"

/-- `load_events` (`app.py` lines 112-121).  The file system is embedded as
an `Option String` (the file's content, `none` when `os.path.exists` is
false) and `json.load` as an oracle `jparse` (`none` models the parse
raising).  A missing file or a caught exception falls through to `[]`. -/
def load_events (jparse : String → Option (List Event))
    (file : Option String) : List Event :=
  match file with
  | none => []
  | some content =>
    match jparse content with
    | some evts => evts
    | none => []

/-- `delete_event` (`app.py` lines 430-437).  Returns the HTTP response
together with the argument passed to `save_events`, `none` when save is
never called.  `events.pop(index)` on an in-range index is
`List.eraseIdx`. -/
def delete_event (events : List Event) (index : Int) :
    HttpResponse × Option (List Event) :=
  if 0 ≤ index ∧ index < events.length then
    (⟨200, [("success", .bool true)]⟩, some (events.eraseIdx index.toNat))
  else
    (⟨404, [("error", .str "Not found")]⟩, none)

/-! ## Python `datetime` values

A `datetime.datetime` is embedded as its calendar fields at one-second
resolution plus an optional UTC offset in minutes (`none` = a naive
datetime).  `datetime.fromisoformat` is modelled as already performed: the
remote schema below carries the parsed record (a string the parser rejects
raises inside `parse_google_event_to_local`'s `try` and yields `None`,
the same outcome as the missing-field cases that are modelled). -/

structure PyDateTime where
  year : Nat
  month : Nat
  day : Nat
  hour : Nat
  minute : Nat
  second : Nat
  tzOffsetMinutes : Option Int
  deriving Repr, DecidableEq

/-- Days since 0000-03-01 in the proleptic Gregorian calendar (valid for
year ≥ 1, the `datetime` range). -/
def civilDays (y m d : Nat) : Nat :=
  let yy := if m ≤ 2 then y - 1 else y
  let mp := if m ≤ 2 then m + 9 else m - 3
  yy * 365 + yy / 4 - yy / 100 + yy / 400 + (153 * mp + 2) / 5 + (d - 1)

/-- Seconds since 0000-03-01T00:00:00 of a wall-clock reading. -/
def civilSeconds (y m d h mi s : Nat) : Nat :=
  civilDays y m d * 86400 + h * 3600 + mi * 60 + s

/-- Wall-clock seconds of a datetime, ignoring its offset. -/
def naiveSeconds (dt : PyDateTime) : Nat :=
  civilSeconds dt.year dt.month dt.day dt.hour dt.minute dt.second

/-- Absolute instant of a datetime: wall-clock seconds minus the UTC
offset.  Subtraction of two aware `datetime`s compares these. -/
def utcSeconds (dt : PyDateTime) : Int :=
  (naiveSeconds dt : Int) - 60 * dt.tzOffsetMinutes.getD 0

/-- Zero-pad to two digits, as `strftime` `%m`/`%d`/`%H`/`%M` do. -/
def pad2 (n : Nat) : String :=
  if n < 10 then "0" ++ toString n else toString n

/-- Zero-pad to four digits (`strftime` `%Y` on the 4-digit years
`fromisoformat` accepts). -/
def pad4 (n : Nat) : String :=
  if n < 10 then "000" ++ toString n
  else if n < 100 then "00" ++ toString n
  else if n < 1000 then "0" ++ toString n
  else toString n

/-- `start_dt.strftime('%Y-%m-%d')` (`app.py` line 218). -/
def fmtDate (dt : PyDateTime) : String :=
  pad4 dt.year ++ "-" ++ pad2 dt.month ++ "-" ++ pad2 dt.day

/-- `start_dt.strftime('%H:%M')` (`app.py` line 219). -/
def fmtTime (dt : PyDateTime) : String :=
  pad2 dt.hour ++ ":" ++ pad2 dt.minute

/-! ## The remote (Google) event schema -/

/-- A remote `start`/`end` object: either `{'dateTime': ...}` (here with
the ISO string already parsed) or an all-day `{'date': ...}`. -/
inductive GTime where
  | dateTime (dt : PyDateTime)
  | date (d : String)
  deriving Repr, DecidableEq

/-- A remote event as returned by the calendar API.  `gend` embeds the
source's `end` field (a Lean keyword); `none` in `start`/`gend` models the
key being absent, which makes the dict access raise `KeyError`. -/
structure GEvent where
  summary : Option String
  description : Option String
  colorId : Option String
  start : Option GTime
  gend : Option GTime
  deriving Repr, DecidableEq

/-- The date/time/duration branch of `parse_google_event_to_local`
(`app.py` lines 214-225), factored out over the two `start`/`end`
objects.  The timed branch reads `end['dateTime']` (a `KeyError` → `None`
when `end` is date-only) and subtracts the datetimes (`TypeError` → `None`
on a naive/aware mix); `duration` is
`int((end_dt - start_dt).total_seconds() / 60)`, truncation toward zero of
the second delta over 60.  The all-day branch never touches `end`'s
fields. -/
def normalizeTimes (s e : GTime) : Option (String × String × Int) :=
  match s with
  | .dateTime sdt =>
    match e with
    | .dateTime edt =>
      if sdt.tzOffsetMinutes.isSome = edt.tzOffsetMinutes.isSome then
        some (fmtDate sdt, fmtTime sdt,
              Int.tdiv (utcSeconds edt - utcSeconds sdt) 60)
      else none
    | .date _ => none
  | .date d => some (d, "00:00", (1440 : Int))

/-- `parse_google_event_to_local` (`app.py` lines 207-243).  All the
exception paths of the `try` block end in `None`: a missing `start` or
`end` key (`KeyError` on lines 210-211) and the failures inside
`normalizeTimes`. -/
def parse_google_event_to_local (g : GEvent) : Option Event :=
  match g.start, g.gend with
  | some s, some e =>
    match normalizeTimes s e with
    | some dtd =>
      some { title := g.summary.getD "Bez tytułu",
             date := dtd.1,
             time := dtd.2.1,
             duration := dtd.2.2,
             description := g.description.getD "",
             color := toLocalHex (g.colorId.getD "1"),
             imported_from_google := true }
    | none => none
  | _, _ => none

/-! ## Pull: `import_google_to_local` -/

/-- The per-event comparison of `app.py` lines 490-492: exact equality on
the `(title, date, time)` triple. -/
def keyEq (a b : Event) : Bool :=
  a.title == b.title && a.date == b.date && a.time == b.time

/-- The duplicate test of `app.py` lines 489-494: some existing local
event matches the candidate on the exact `(title, date, time)` triple. -/
def isDup (le : Event) (locals : List Event) : Bool :=
  locals.any fun e => keyEq e le

/-- Outcome of a pull: the list handed to `save_events` (the save is
unconditional) and the `imported_count` reported in the response. -/
structure PullRun where
  store : List Event
  count : Nat
  deriving Repr, DecidableEq

/-- The loop of `app.py` lines 484-498 over the fetched remote events,
threading the growing local list and the imported counter. -/
def importLoop (gs : List GEvent) (locals : List Event) (count : Nat) :
    PullRun :=
  match gs with
  | [] => ⟨locals, count⟩
  | g :: rest =>
    match parse_google_event_to_local g with
    | none => importLoop rest locals count
    | some le =>
      if isDup le locals then importLoop rest locals count
      else importLoop rest (locals ++ [le]) (count + 1)

/-- `import_google_to_local` (`app.py` lines 456-509), given the loaded
local list and the fetched remote window. -/
def googleImportToLocal (locals : List Event) (gs : List GEvent) : PullRun :=
  importLoop gs locals 0

/-! ## Push: `google_sync`

`datetime.strptime(f"{date} {time}", "%Y-%m-%d %H:%M")` (`app.py` line
592) is embedded as a parser over the concatenated string.  CPython
compiles the format to a regex: `%Y` is exactly four digits, `%m`/`%d`/
`%H`/`%M` are one or two digits within their ranges (a leading-zero
two-digit form is allowed everywhere except `"00"` for month and day),
literal `-`/`:` match themselves, format whitespace matches a nonempty
whitespace run, the whole string must be consumed, and the final
`datetime(...)` constructor additionally requires year ≥ 1 and the day to
exist in the month.  Because every numeric field is followed by a
non-digit delimiter or the end of the string, matching each maximal digit
run and checking its length and range is equivalent to the regex. -/

/-- Value of a digit run (most significant first). -/
def digitsVal (cs : List Char) : Nat :=
  cs.foldl (fun a c => 10 * a + (c.toNat - 48)) 0

/-- Gregorian leap-year test, as `calendar.isleap` / `datetime` use. -/
def isLeap (y : Nat) : Bool :=
  (y % 4 == 0 && y % 100 != 0) || y % 400 == 0

/-- Number of days of month `m` in year `y`. -/
def daysInMonth (y m : Nat) : Nat :=
  if m = 2 then (if isLeap y then 29 else 28)
  else if m = 4 ∨ m = 6 ∨ m = 9 ∨ m = 11 then 30
  else 31

/-- `datetime.strptime(s, "%Y-%m-%d %H:%M")`: `some` the parsed naive
datetime, `none` when the call raises `ValueError`. -/
def strptimeYMDHM (s : String) : Option PyDateTime :=
  let (ys, r1) := s.toList.span Char.isDigit
  if ys.length = 4 ∧ 1 ≤ digitsVal ys then
    match r1 with
    | '-' :: r2 =>
      let (ms, r3) := r2.span Char.isDigit
      if (ms.length = 1 ∨ ms.length = 2) ∧
          1 ≤ digitsVal ms ∧ digitsVal ms ≤ 12 then
        match r3 with
        | '-' :: r4 =>
          let (ds, r5) := r4.span Char.isDigit
          if (ds.length = 1 ∨ ds.length = 2) ∧ 1 ≤ digitsVal ds ∧
              digitsVal ds ≤ daysInMonth (digitsVal ys) (digitsVal ms) then
            let (ws, r6) := r5.span Char.isWhitespace
            if ws = [] then none
            else
              let (hs, r7) := r6.span Char.isDigit
              if (hs.length = 1 ∨ hs.length = 2) ∧ digitsVal hs ≤ 23 then
                match r7 with
                | ':' :: r8 =>
                  let (mins, r9) := r8.span Char.isDigit
                  if ((mins.length = 1 ∨ mins.length = 2) ∧
                      digitsVal mins ≤ 59) ∧ r9 = [] then
                    some ⟨digitsVal ys, digitsVal ms, digitsVal ds,
                          digitsVal hs, digitsVal mins, 0, none⟩
                  else none
                | _ => none
              else none
          else none
        | _ => none
      else none
    | _ => none
  else none

/-- `datetime.min` = 0001-01-01T00:00:00, in civil seconds. -/
def minDatetimeSeconds : Nat := civilSeconds 1 1 1 0 0 0

/-- `datetime.max` (to second resolution) = 9999-12-31T23:59:59. -/
def maxDatetimeSeconds : Nat := civilSeconds 9999 12 31 23 59 59

/-- How a push run aborts: `PushError.http` is an `HttpError` raised by a
remote insert and caught at `app.py` line 626; `PushError.valueError` is
the uncaught `ValueError`/`OverflowError` of `strptime`/`timedelta`
arithmetic on a malformed or out-of-range event. -/
inductive PushError where
  | http
  | valueError
  deriving Repr, DecidableEq

/-- State of the push loop when it stops: counters, the events
successfully inserted remotely (in order), and the abort reason if any. -/
structure LoopOut where
  synced : Nat
  skipped : Nat
  sent : List Event
  err : Option PushError
  deriving Repr, DecidableEq

/-- `end = start + timedelta(minutes=e["duration"])` (`app.py` line 593),
in civil seconds of the naive result. -/
def endSeconds (start : PyDateTime) (e : Event) : Int :=
  (naiveSeconds start : Int) + e.duration * 60

/-- Whether the computed end instant stays inside the `datetime` range;
outside it the addition raises `OverflowError`. -/
def endInRange (sec : Int) : Prop :=
  (minDatetimeSeconds : Int) ≤ sec ∧ sec ≤ (maxDatetimeSeconds : Int)

instance (sec : Int) : Decidable (endInRange sec) :=
  inferInstanceAs (Decidable (_ ∧ _))

/-- A non-imported event survives the datetime arithmetic of the push
loop: its `date time` string parses under `"%Y-%m-%d %H:%M"` and the end
instant stays in range. -/
def exportable (e : Event) : Bool :=
  match strptimeYMDHM (e.date ++ " " ++ e.time) with
  | none => false
  | some start => decide (endInRange (endSeconds start e))

/-- The loop of `app.py` lines 584-615.  `insertOk k` is the transport
oracle for the `k`-th remote insert of this push (counting from 0);
`false` means that insert raises `HttpError`.  An event flagged
`imported_from_google` is skipped before any parsing.  For the others,
`strptime` runs first, then `end = start + timedelta(minutes=duration)`
(which raises iff the result leaves the `datetime` range), then the
insert. -/
def syncLoop (insertOk : Nat → Bool) (events : List Event)
    (synced skipped : Nat) (sent : List Event) : LoopOut :=
  match events with
  | [] => ⟨synced, skipped, sent, none⟩
  | e :: rest =>
    if e.imported_from_google then
      syncLoop insertOk rest synced (skipped + 1) sent
    else
      match strptimeYMDHM (e.date ++ " " ++ e.time) with
      | none => ⟨synced, skipped, sent, some .valueError⟩
      | some start =>
        if endInRange (endSeconds start e) then
          if insertOk sent.length then
            syncLoop insertOk rest (synced + 1) skipped (sent ++ [e])
          else ⟨synced, skipped, sent, some .http⟩
        else ⟨synced, skipped, sent, some .valueError⟩

/-- Everything observable about one `google_sync` call: the HTTP response,
the argument of `save_events` (`none` = save never called), the two loop
counters (`skipped` is printed per event at `app.py` line 588 but, unlike
`synced`, never placed in the response), and the list of events actually
inserted remotely. -/
structure SyncRun where
  resp : HttpResponse
  saved : Option (List Event)
  synced : Nat
  skipped : Nat
  sent : List Event
  deriving Repr, DecidableEq

/-- `google_sync` (`app.py` lines 566-628) on an authenticated session,
given the loaded local list.  On loop completion the store is pruned to
the `imported_from_google` events and `{"success": true, "synced": n}` is
returned; a raised `HttpError` is caught and answered with a 500 error
body; any other exception propagates to Flask's generic 500.  In the two
error cases `save_events` is never reached. -/
def google_sync (insertOk : Nat → Bool) (events : List Event) : SyncRun :=
  let out := syncLoop insertOk events 0 0 []
  match out.err with
  | none =>
    ⟨⟨200, [("success", .bool true), ("synced", .num out.synced)]⟩,
     some (events.filter (fun e => e.imported_from_google)),
     out.synced, out.skipped, out.sent⟩
  | some .http =>
    ⟨⟨500, [("error", .str "HttpError")]⟩, none,
     out.synced, out.skipped, out.sent⟩
  | some .valueError =>
    ⟨⟨500, []⟩, none, out.synced, out.skipped, out.sent⟩

/-- The store file content after a call, given its content before and the
`save_events` argument of the call (`none` = file untouched). -/
def persistedAfter (before : List Event) (saved : Option (List Event)) :
    List Event :=
  saved.getD before

/-! ## Sample data for concrete instantiations -/

/-- A store entry created by an earlier pull. -/
def sampleImported : Event :=
  { title := "Pulled", date := "2025-06-10", time := "09:00", duration := 60,
    description := "", color := "#4285f4", imported_from_google := true }

/-- A locally created, not-yet-synced store entry. -/
def sampleFresh : Event :=
  { title := "Gym", date := "2025-06-10", time := "18:00", duration := 60,
    description := "", color := "#dc2127", imported_from_google := false }

/-- A second locally created store entry. -/
def sampleFresh2 : Event :=
  { title := "Dentist", date := "2025-07-01", time := "08:30", duration := 45,
    description := "checkup", color := "#0f9d58",
    imported_from_google := false }

/-- A remote event with precise start/end instants. -/
def sampleTimedG : GEvent :=
  { summary := some "Gym", description := none, colorId := some "5",
    start := some (.dateTime ⟨2025, 6, 10, 18, 0, 0, some 0⟩),
    gend := some (.dateTime ⟨2025, 6, 10, 19, 30, 0, some 0⟩) }

/-- An all-day remote event. -/
def sampleAllDayG : GEvent :=
  { summary := some "Holiday", description := some "day off",
    colorId := none,
    start := some (.date "2025-12-24"),
    gend := some (.date "2025-12-25") }

/-- A malformed remote record: both `start` and `end` keys missing, so
normalization raises `KeyError` and yields `None`. -/
def sampleBadG : GEvent :=
  { summary := some "broken", description := none, colorId := none,
    start := none, gend := none }

/-- A three-entry store for the deletion witness. -/
def sampleStore : List Event := [sampleImported, sampleFresh, sampleFresh2]

/-! ## Theorems -/

/-- `keyEq a b` decides exact equality of the `(title, date, time)`
triples. -/
theorem keyEq_iff (a b : Event) :
    keyEq a b = true ↔
      a.title = b.title ∧ a.date = b.date ∧ a.time = b.time := by
  simp [keyEq, and_assoc]

/-- `isDup le locals` decides the existence of a triple-equal event. -/
theorem isDup_iff (le : Event) (locals : List Event) :
    isDup le locals = true ↔ ∃ e ∈ locals, keyEq e le = true := by
  simp [isDup, List.any_eq_true]

/-- Every event `parse_google_event_to_local` produces carries the
`imported_from_google` marker. -/
theorem parse_imported (g : GEvent) (le : Event)
    (h : parse_google_event_to_local g = some le) :
    le.imported_from_google = true := by
  unfold parse_google_event_to_local at h
  split at h
  · split at h
    · injection h with h2
      rw [← h2]
    · exact Option.noConfusion h
  · exact Option.noConfusion h

/-- Full characterisation of the pull loop (`app.py` lines 484-498): the
result extends the incoming list with a suffix of newly imported events,
the counter counts exactly that suffix, every appended event is flagged
`imported_from_google` and matches no event of the incoming list on the
`(title, date, time)` triple, and every remote event that normalizes has a
triple-equal representative in the final list. -/
theorem importLoop_spec (gs : List GEvent) :
    ∀ (locals : List Event) (count : Nat),
    ∃ new : List Event,
      importLoop gs locals count = ⟨locals ++ new, count + new.length⟩ ∧
      (∀ le ∈ new, le.imported_from_google = true ∧
        ∀ e ∈ locals, keyEq e le = false) ∧
      (∀ g ∈ gs, ∀ le, parse_google_event_to_local g = some le →
        ∃ e ∈ locals ++ new, keyEq e le = true) := by
  induction gs with
  | nil =>
    intro locals count
    exact ⟨[], by simp [importLoop], by simp, by simp⟩
  | cons g rest ih =>
    intro locals count
    rcases hp : parse_google_event_to_local g with _ | le
    · obtain ⟨new, hrun, hnew, hcover⟩ := ih locals count
      refine ⟨new, ?_, hnew, ?_⟩
      · have hstep : importLoop (g :: rest) locals count =
            importLoop rest locals count := by
          simp [importLoop, hp]
        rw [hstep, hrun]
      · intro g' hg' le' hle'
        rcases List.mem_cons.mp hg' with hg2 | hg2
        · subst hg2
          rw [hp] at hle'
          exact Option.noConfusion hle'
        · exact hcover g' hg2 le' hle'
    · by_cases hd : isDup le locals = true
      · obtain ⟨new, hrun, hnew, hcover⟩ := ih locals count
        refine ⟨new, ?_, hnew, ?_⟩
        · have hstep : importLoop (g :: rest) locals count =
              importLoop rest locals count := by
            simp [importLoop, hp, hd]
          rw [hstep, hrun]
        · intro g' hg' le' hle'
          rcases List.mem_cons.mp hg' with hg2 | hg2
          · subst hg2
            rw [hp] at hle'
            injection hle' with hle2
            subst hle2
            obtain ⟨e, he, hke⟩ := (isDup_iff le locals).mp hd
            exact ⟨e, List.mem_append_left _ he, hke⟩
          · exact hcover g' hg2 le' hle'
      · obtain ⟨new, hrun, hnew, hcover⟩ := ih (locals ++ [le]) (count + 1)
        rw [Bool.not_eq_true] at hd
        refine ⟨le :: new, ?_, ?_, ?_⟩
        · have hstep : importLoop (g :: rest) locals count =
              importLoop rest (locals ++ [le]) (count + 1) := by
            simp [importLoop, hp, hd]
          rw [hstep, hrun]
          simp only [PullRun.mk.injEq, List.length_cons]
          exact ⟨by simp, by omega⟩
        · intro le' hle'
          rcases List.mem_cons.mp hle' with hle2 | hle2
          · subst hle2
            refine ⟨parse_imported g le' hp, ?_⟩
            intro e he
            by_contra hke
            rw [Bool.not_eq_false] at hke
            have hdup : isDup le' locals = true :=
              (isDup_iff le' locals).mpr ⟨e, he, hke⟩
            rw [hdup] at hd
            exact Bool.noConfusion hd
          · obtain ⟨himp, hnok⟩ := hnew le' hle2
            exact ⟨himp, fun e he => hnok e (List.mem_append_left _ he)⟩
        · intro g' hg' le' hle'
          rcases List.mem_cons.mp hg' with hg2 | hg2
          · subst hg2
            rw [hp] at hle'
            injection hle' with hle2
            rw [hle2]
            refine ⟨le', ?_, (keyEq_iff le' le').mpr ⟨rfl, rfl, rfl⟩⟩
            simp
          · obtain ⟨e, he, hke⟩ := hcover g' hg2 le' hle'
            refine ⟨e, ?_, hke⟩
            simpa [List.append_assoc] using he

/-- When every remote event that normalizes already has a triple-equal
event in the local list, the pull loop is the identity. -/
theorem importLoop_no_new (gs : List GEvent) :
    ∀ (locals : List Event) (count : Nat),
    (∀ g ∈ gs, ∀ le, parse_google_event_to_local g = some le →
      ∃ e ∈ locals, keyEq e le = true) →
    importLoop gs locals count = ⟨locals, count⟩ := by
  induction gs with
  | nil =>
    intro locals count _
    simp [importLoop]
  | cons g rest ih =>
    intro locals count hcov
    rcases hp : parse_google_event_to_local g with _ | le
    · have hstep : importLoop (g :: rest) locals count =
          importLoop rest locals count := by
        simp [importLoop, hp]
      rw [hstep]
      exact ih locals count (fun g' hg' => hcov g' (List.mem_cons_of_mem _ hg'))
    · have hdup : isDup le locals = true :=
        (isDup_iff le locals).mpr (hcov g (List.mem_cons_self _ _) le hp)
      have hstep : importLoop (g :: rest) locals count =
          importLoop rest locals count := by
        simp [importLoop, hp, hdup]
      rw [hstep]
      exact ih locals count (fun g' hg' => hcov g' (List.mem_cons_of_mem _ hg'))

/-- **C2** Pull dedup: after a pull, the saved store is the original local
list extended by the new imports; the reported count counts exactly those;
every appended event carries `imported_from_google = true` and matches no
pre-existing local event on `(title, date, time)`; consequently, for any
key already present locally, the number of store entries with that key is
unchanged — a local event and a triple-equal remote event never yield two
entries. -/
theorem pull_dedup (locals : List Event) (gs : List GEvent) :
    ∃ new : List Event,
      (googleImportToLocal locals gs).store = locals ++ new ∧
      (googleImportToLocal locals gs).count = new.length ∧
      (∀ le ∈ new, le.imported_from_google = true) ∧
      (∀ le ∈ new, ∀ e ∈ locals, keyEq e le = false) ∧
      (∀ e0 ∈ locals,
        (googleImportToLocal locals gs).store.countP (fun e => keyEq e0 e) =
          locals.countP (fun e => keyEq e0 e)) := by
  obtain ⟨new, hrun, hnew, _⟩ := importLoop_spec gs locals 0
  refine ⟨new, ?_, ?_, fun le hle => (hnew le hle).1,
    fun le hle => (hnew le hle).2, ?_⟩
  · unfold googleImportToLocal
    rw [hrun]
  · unfold googleImportToLocal
    rw [hrun]
    simp
  · intro e0 he0
    unfold googleImportToLocal
    rw [hrun]
    show (locals ++ new).countP _ = _
    rw [List.countP_append]
    have hzero : new.countP (fun e => keyEq e0 e) = 0 := by
      rw [List.countP_eq_zero]
      intro le hle
      have hke := (hnew le hle).2 e0 he0
      simp [hke]
    rw [hzero, Nat.add_zero]

/-- Witness for C2: the spec's Gym scenario — the local store already has
`("Gym", "2025-06-10", "18:00")` and the remote window returns the same
event, so the pull adds nothing with that key. -/
theorem pull_dedup_witness :
    ∃ new : List Event,
      (googleImportToLocal [sampleFresh] [sampleTimedG]).store =
        [sampleFresh] ++ new ∧
      (googleImportToLocal [sampleFresh] [sampleTimedG]).count = new.length ∧
      (∀ le ∈ new, le.imported_from_google = true) ∧
      (∀ le ∈ new, ∀ e ∈ [sampleFresh], keyEq e le = false) ∧
      (∀ e0 ∈ [sampleFresh],
        (googleImportToLocal [sampleFresh] [sampleTimedG]).store.countP
            (fun e => keyEq e0 e) =
          [sampleFresh].countP (fun e => keyEq e0 e)) :=
  pull_dedup [sampleFresh] [sampleTimedG]

/-- **C3** Idempotent pull: a second pull over the same remote list
imports 0 events and leaves the saved store exactly as the first pull
left it. -/
theorem pull_idempotent (locals : List Event) (gs : List GEvent) :
    googleImportToLocal (googleImportToLocal locals gs).store gs =
      ⟨(googleImportToLocal locals gs).store, 0⟩ := by
  obtain ⟨new, hrun, _, hcover⟩ := importLoop_spec gs locals 0
  unfold googleImportToLocal
  rw [hrun]
  exact importLoop_no_new gs (locals ++ new) 0 hcover

/-- Witness for C3 at a concrete store and remote window. -/
theorem pull_idempotent_witness :
    googleImportToLocal
        (googleImportToLocal [sampleFresh] [sampleTimedG, sampleAllDayG]).store
        [sampleTimedG, sampleAllDayG] =
      ⟨(googleImportToLocal [sampleFresh]
          [sampleTimedG, sampleAllDayG]).store, 0⟩ :=
  pull_idempotent [sampleFresh] [sampleTimedG, sampleAllDayG]

/-- Dropping a remote record that fails to normalize from anywhere in the
fetched list leaves the pull loop's result unchanged, for any loop
state. -/
theorem importLoop_drop_malformed (bad : GEvent)
    (hbad : parse_google_event_to_local bad = none) (gs2 : List GEvent) :
    ∀ (gs1 : List GEvent) (locals : List Event) (count : Nat),
    importLoop (gs1 ++ bad :: gs2) locals count =
      importLoop (gs1 ++ gs2) locals count := by
  intro gs1
  induction gs1 with
  | nil =>
    intro locals count
    simp only [List.nil_append]
    simp [importLoop, hbad]
  | cons g rest ih =>
    intro locals count
    simp only [List.cons_append]
    rcases hp : parse_google_event_to_local g with _ | le
    · have h1 : importLoop (g :: (rest ++ bad :: gs2)) locals count =
          importLoop (rest ++ bad :: gs2) locals count := by
        simp [importLoop, hp]
      have h2 : importLoop (g :: (rest ++ gs2)) locals count =
          importLoop (rest ++ gs2) locals count := by
        simp [importLoop, hp]
      rw [h1, h2, ih]
    · by_cases hd : isDup le locals = true
      · have h1 : importLoop (g :: (rest ++ bad :: gs2)) locals count =
            importLoop (rest ++ bad :: gs2) locals count := by
          simp [importLoop, hp, hd]
        have h2 : importLoop (g :: (rest ++ gs2)) locals count =
            importLoop (rest ++ gs2) locals count := by
          simp [importLoop, hp, hd]
        rw [h1, h2, ih]
      · rw [Bool.not_eq_true] at hd
        have h1 : importLoop (g :: (rest ++ bad :: gs2)) locals count =
            importLoop (rest ++ bad :: gs2) (locals ++ [le]) (count + 1) := by
          simp [importLoop, hp, hd]
        have h2 : importLoop (g :: (rest ++ gs2)) locals count =
            importLoop (rest ++ gs2) (locals ++ [le]) (count + 1) := by
          simp [importLoop, hp, hd]
        rw [h1, h2, ih]

/-- **C9** Malformed remote record tolerance: a remote event whose
normalization fails contributes nothing to a pull — the run (saved store
and imported counter alike) equals the run on the fetched list with that
record removed, wherever it sits, so it is not counted and does not stop
the remaining records from being imported.  (Normalization failure is the
`None` return of `parse_google_event_to_local`'s exception handler, so
nothing is raised.) -/
theorem pull_skips_malformed (locals : List Event) (gs1 gs2 : List GEvent)
    (bad : GEvent) (hbad : parse_google_event_to_local bad = none) :
    googleImportToLocal locals (gs1 ++ bad :: gs2) =
      googleImportToLocal locals (gs1 ++ gs2) := by
  unfold googleImportToLocal
  exact importLoop_drop_malformed bad hbad gs2 gs1 locals 0

/-- Witness for C9: a record with `start`/`end` missing is skipped while
the all-day event after it is still imported. -/
theorem pull_skips_malformed_witness :
    googleImportToLocal [] [sampleBadG, sampleAllDayG] =
      googleImportToLocal [] [sampleAllDayG] ∧
    (googleImportToLocal [] [sampleBadG, sampleAllDayG]).count = 1 :=
  ⟨pull_skips_malformed [] [] [sampleAllDayG] sampleBadG rfl, by decide⟩

/-- When every non-imported event is exportable and every remote insert
succeeds, the push loop runs to completion: it syncs exactly the
non-imported events (in order), skips exactly the imported ones, and ends
without error. -/
theorem syncLoop_ok (insertOk : Nat → Bool) (hok : ∀ k, insertOk k = true)
    (events : List Event) :
    ∀ (synced skipped : Nat) (sent : List Event),
    (∀ e ∈ events, e.imported_from_google = false → exportable e = true) →
    syncLoop insertOk events synced skipped sent =
      ⟨synced + (events.filter fun e => !e.imported_from_google).length,
       skipped + (events.filter fun e => e.imported_from_google).length,
       sent ++ events.filter fun e => !e.imported_from_google,
       none⟩ := by
  induction events with
  | nil =>
    intro synced skipped sent _
    simp [syncLoop]
  | cons e rest ih =>
    intro synced skipped sent hw
    have hrest : ∀ e' ∈ rest, e'.imported_from_google = false →
        exportable e' = true :=
      fun e' he' => hw e' (List.mem_cons_of_mem _ he')
    rcases him : e.imported_from_google with _ | _
    · have hexp : exportable e = true :=
        hw e (List.mem_cons_self e rest) him
      unfold exportable at hexp
      split at hexp
      · exact Bool.noConfusion hexp
      · rename_i start hst
        have hrange : endInRange (endSeconds start e) :=
          of_decide_eq_true hexp
        have hstep : syncLoop insertOk (e :: rest) synced skipped sent =
            syncLoop insertOk rest (synced + 1) skipped (sent ++ [e]) := by
          simp [syncLoop, him, hst, hrange, hok]
        rw [hstep, ih (synced + 1) skipped (sent ++ [e]) hrest]
        simp [List.filter_cons, him, Nat.add_comm, Nat.add_left_comm,
          Nat.add_assoc, List.append_assoc]
    · have hstep : syncLoop insertOk (e :: rest) synced skipped sent =
          syncLoop insertOk rest synced (skipped + 1) sent := by
        simp [syncLoop, him]
      rw [hstep, ih synced (skipped + 1) sent hrest]
      simp [List.filter_cons, him, Nat.add_comm, Nat.add_left_comm,
        Nat.add_assoc]

/-- **C1** Push atomicity: whenever a remote insert of the push raises
`HttpError`, the call answers with a 500 error body, `save_events` is
never reached, and the persisted store after the call is the store before
it. -/
theorem push_atomic (insertOk : Nat → Bool) (events : List Event)
    (h : (syncLoop insertOk events 0 0 []).err = some PushError.http) :
    (google_sync insertOk events).saved = none ∧
    persistedAfter events (google_sync insertOk events).saved = events ∧
    (google_sync insertOk events).resp.status = 500 ∧
    (google_sync insertOk events).resp.body.lookup "error" =
      some (JVal.str "HttpError") := by
  simp [google_sync, h, persistedAfter]

/-- Witness for C1: one fresh event, a transport in which every insert
fails. -/
theorem push_atomic_witness :
    (google_sync (fun _ => false) [sampleFresh]).saved = none ∧
    persistedAfter [sampleFresh]
        (google_sync (fun _ => false) [sampleFresh]).saved = [sampleFresh] ∧
    (google_sync (fun _ => false) [sampleFresh]).resp.status = 500 ∧
    (google_sync (fun _ => false) [sampleFresh]).resp.body.lookup "error" =
      some (JVal.str "HttpError") :=
  push_atomic (fun _ => false) [sampleFresh] (by decide)

/-- **C4** Push prune: when every remote insert succeeds (and every
non-imported event passes the datetime arithmetic, so the loop reaches its
end), the store saved by the push is exactly the sublist of original
events with `imported_from_google = true`. -/
theorem push_prune (insertOk : Nat → Bool) (events : List Event)
    (hw : ∀ e ∈ events, e.imported_from_google = false → exportable e = true)
    (hok : ∀ k, insertOk k = true) :
    (google_sync insertOk events).saved =
      some (events.filter fun e => e.imported_from_google) ∧
    persistedAfter events (google_sync insertOk events).saved =
      events.filter (fun e => e.imported_from_google) ∧
    (google_sync insertOk events).resp.status = 200 := by
  have hloop := syncLoop_ok insertOk hok events 0 0 [] hw
  simp [google_sync, hloop, persistedAfter]

/-- Witness for C4: one imported plus one fresh event, all inserts
succeed; only the imported event is persisted. -/
theorem push_prune_witness :
    (google_sync (fun _ => true) [sampleImported, sampleFresh]).saved =
      some [sampleImported] ∧
    persistedAfter [sampleImported, sampleFresh]
        (google_sync (fun _ => true) [sampleImported, sampleFresh]).saved =
      [sampleImported] ∧
    (google_sync (fun _ => true) [sampleImported, sampleFresh]).resp.status =
      200 :=
  push_prune (fun _ => true) [sampleImported, sampleFresh]
    (by decide) (fun _ => rfl)

/-- Counterexample for C5 as stated: on the spec's own scenario (one
imported event, one fresh event, all inserts succeeding) the loop indeed
computes `synced = 1` and `skipped = 1`, but the response body carries
only the keys `success` and `synced` — the skipped count is not
reported. -/
theorem push_report_counterexample :
    (google_sync (fun _ => true) [sampleImported, sampleFresh]).synced = 1 ∧
    (google_sync (fun _ => true) [sampleImported, sampleFresh]).skipped = 1 ∧
    (google_sync (fun _ => true)
        [sampleImported, sampleFresh]).resp.body.map Prod.fst =
      ["success", "synced"] ∧
    (google_sync (fun _ => true)
        [sampleImported, sampleFresh]).resp.body.lookup "skipped" = none := by
  decide

/-- **C5 (amended)** Push skip-and-report: a completed push skips every
`imported_from_google` event (none of them is ever inserted remotely — the
inserted sequence is exactly the non-imported events) and counts them in
the internal `skipped` counter, but the response reports only the synced
count; `skipped` does not appear in the result.  On a store with one
imported and one fresh event this gives `synced = 1` reported and
`skipped = 1` internal. -/
theorem push_skip_and_report (insertOk : Nat → Bool) (events : List Event)
    (hw : ∀ e ∈ events, e.imported_from_google = false → exportable e = true)
    (hok : ∀ k, insertOk k = true) :
    (google_sync insertOk events).skipped =
      (events.filter fun e => e.imported_from_google).length ∧
    (google_sync insertOk events).sent =
      events.filter (fun e => !e.imported_from_google) ∧
    (∀ e ∈ (google_sync insertOk events).sent,
      e.imported_from_google = false) ∧
    (google_sync insertOk events).resp.body =
      [("success", JVal.bool true),
       ("synced",
        JVal.num (events.filter fun e => !e.imported_from_google).length)] ∧
    (google_sync insertOk events).resp.body.lookup "skipped" = none := by
  have hloop := syncLoop_ok insertOk hok events 0 0 [] hw
  refine ⟨?_, ?_, ?_, ?_, ?_⟩ <;>
    simp [google_sync, hloop]

/-- Witness for C5 (amended) on the spec's scenario store. -/
theorem push_skip_and_report_witness :
    (google_sync (fun _ => true) [sampleImported, sampleFresh]).skipped = 1 ∧
    (google_sync (fun _ => true) [sampleImported, sampleFresh]).sent =
      [sampleFresh] ∧
    (google_sync (fun _ => true) [sampleImported, sampleFresh]).resp.body =
      [("success", JVal.bool true), ("synced", JVal.num 1)] ∧
    (google_sync (fun _ => true)
        [sampleImported, sampleFresh]).resp.body.lookup "skipped" = none := by
  have h := push_skip_and_report (fun _ => true) [sampleImported, sampleFresh]
    (by decide) (fun _ => rfl)
  exact ⟨h.1, h.2.1, h.2.2.2.1, h.2.2.2.2⟩

/-- **C6** Color round-trip: the table has exactly 10 entries, mapping any
of its hex values out and back is the identity (`toRemoteId` and
`toLocalHex` are both read off the single `GOOGLE_COLOR_MAP` table), an
unknown hex maps to the id `"1"` and an unknown id maps to the palette's
primary blue `"#4285f4"`. -/
theorem color_round_trip :
    GOOGLE_COLOR_MAP.length = 10 ∧
    (∀ p ∈ GOOGLE_COLOR_MAP, toLocalHex (toRemoteId p.1) = p.1) ∧
    (∀ hex : String, GOOGLE_COLOR_MAP.lookup hex = none →
      toRemoteId hex = "1") ∧
    (∀ id : String, colorMapReverse.lookup id = none →
      toLocalHex id = "#4285f4") := by
  refine ⟨rfl, by decide, ?_, ?_⟩
  · intro hex h
    simp [toRemoteId, h]
  · intro id h
    simp [toLocalHex, h]

/-- Witness for C6: a table entry round-trips; a foreign hex and a
foreign id hit the two defaults. -/
theorem color_round_trip_witness :
    toLocalHex (toRemoteId "#dc2127") = "#dc2127" ∧
    toRemoteId "#123456" = "1" ∧
    toLocalHex "77" = "#4285f4" :=
  ⟨color_round_trip.2.1 ("#dc2127", "11") (by decide),
   color_round_trip.2.2.1 "#123456" (by decide),
   color_round_trip.2.2.2 "77" (by decide)⟩

/-- **C7** Store load resilience: loading a missing file yields the empty
list, and loading a present file whose content the JSON parser rejects
also yields the empty list; both paths return normally (the function is
total), surfacing no error. -/
theorem load_resilient :
    (∀ jparse : String → Option (List Event),
      load_events jparse none = []) ∧
    (∀ (jparse : String → Option (List Event)) (content : String),
      jparse content = none → load_events jparse (some content) = []) := by
  constructor
  · intro jparse
    rfl
  · intro jparse content h
    simp [load_events, h]

/-- Witness for C7 with a parser that rejects the given content. -/
theorem load_resilient_witness :
    load_events (fun _ => none) none = [] ∧
    load_events (fun _ => none) (some "this is not JSON") = [] :=
  ⟨load_resilient.1 _, load_resilient.2 _ _ rfl⟩

/-- **C8** Remote-to-local normalization: a remote event with parsed
`dateTime` start and end yields the local record whose `date`/`time` are
the start instant's wall-clock formatting and whose `duration` is the
end-minus-start delta in whole minutes (truncated); an all-day event
yields `time = "00:00"` and `duration = 1440`; the color is mapped through
the reverse of the color table, falling back to `"#4285f4"` when the
`colorId` is absent or unknown; every produced record is flagged
`imported_from_google = true`. -/
theorem normalize_remote (g : GEvent) :
    (∀ sdt edt : PyDateTime,
      g.start = some (.dateTime sdt) → g.gend = some (.dateTime edt) →
      sdt.tzOffsetMinutes.isSome = edt.tzOffsetMinutes.isSome →
      parse_google_event_to_local g = some
        { title := g.summary.getD "Bez tytułu",
          date := fmtDate sdt,
          time := fmtTime sdt,
          duration := Int.tdiv (utcSeconds edt - utcSeconds sdt) 60,
          description := g.description.getD "",
          color := toLocalHex (g.colorId.getD "1"),
          imported_from_google := true }) ∧
    (∀ (d : String) (e0 : GTime),
      g.start = some (.date d) → g.gend = some e0 →
      parse_google_event_to_local g = some
        { title := g.summary.getD "Bez tytułu",
          date := d,
          time := "00:00",
          duration := 1440,
          description := g.description.getD "",
          color := toLocalHex (g.colorId.getD "1"),
          imported_from_google := true }) ∧
    (g.colorId = none → toLocalHex (g.colorId.getD "1") = "#4285f4") ∧
    (∀ cid : String, g.colorId = some cid →
      colorMapReverse.lookup cid = none →
      toLocalHex (g.colorId.getD "1") = "#4285f4") := by
  refine ⟨?_, ?_, ?_, ?_⟩
  · intro sdt edt hs he htz
    simp [parse_google_event_to_local, hs, he, normalizeTimes, htz]
  · intro d e0 hs he
    simp [parse_google_event_to_local, hs, he, normalizeTimes]
  · intro h
    rw [h]
    rfl
  · intro cid h hl
    rw [h]
    simp [toLocalHex, hl]

/-- Witness for C8: the timed sample (90-minute delta, colorId `"5"`) and
the all-day sample (absent colorId). -/
theorem normalize_remote_witness :
    parse_google_event_to_local sampleTimedG = some
      { title := "Gym", date := "2025-06-10", time := "18:00",
        duration := 90, description := "", color := "#f4b400",
        imported_from_google := true } ∧
    parse_google_event_to_local sampleAllDayG = some
      { title := "Holiday", date := "2025-12-24", time := "00:00",
        duration := 1440, description := "day off", color := "#4285f4",
        imported_from_google := true } :=
  ⟨(normalize_remote sampleTimedG).1
      ⟨2025, 6, 10, 18, 0, 0, some 0⟩ ⟨2025, 6, 10, 19, 30, 0, some 0⟩
      rfl rfl rfl,
   (normalize_remote sampleAllDayG).2.1 "2025-12-24" (.date "2025-12-25")
      rfl rfl⟩

/-- **C10** Delete bounds safety: on an in-range index the call answers
success and saves the list with exactly the event at that position
removed (one entry shorter); on an out-of-range index it answers the 404
`Not found` body and `save_events` is never called, so the persisted store
is unchanged. -/
theorem delete_bounds (events : List Event) (index : Int) :
    (0 ≤ index ∧ index < events.length →
      delete_event events index =
        (⟨200, [("success", JVal.bool true)]⟩,
         some (events.take index.toNat ++ events.drop (index.toNat + 1))) ∧
      (events.take index.toNat ++ events.drop (index.toNat + 1)).length =
        events.length - 1) ∧
    (¬(0 ≤ index ∧ index < events.length) →
      delete_event events index =
        (⟨404, [("error", JVal.str "Not found")]⟩, none) ∧
      persistedAfter events (delete_event events index).2 = events) := by
  constructor
  · intro h
    constructor
    · simp [delete_event, h, List.eraseIdx_eq_take_drop_succ]
    · rw [← List.eraseIdx_eq_take_drop_succ]
      have hlt : index.toNat < events.length := by omega
      rw [List.length_eraseIdx]
      simp [hlt]
  · intro h
    have hresp : delete_event events index =
        (⟨404, [("error", JVal.str "Not found")]⟩, none) := by
      simp [delete_event, h]
    exact ⟨hresp, by rw [hresp]; rfl⟩

/-- Witness for C10: deleting index 1 of a three-event store removes the
middle event; deleting index 5 is a 404 with no save. -/
theorem delete_bounds_witness :
    delete_event sampleStore 1 =
      (⟨200, [("success", JVal.bool true)]⟩,
       some [sampleImported, sampleFresh2]) ∧
    delete_event sampleStore 5 =
      (⟨404, [("error", JVal.str "Not found")]⟩, none) :=
  ⟨((delete_bounds sampleStore 1).1 (by decide)).1,
   ((delete_bounds sampleStore 5).2 (by decide)).1⟩

end CalendarApp
